import Mathlib

/-!
# Local saved-state lookup (`saved_state/LocalSavedStateInterface.cpp`)

A shallow embedding of the constructor of `LocalSavedStateInterface` (validation of the
saved-state configuration record) and of `getMostRecentSavedStateImpl` (the backward search
over the commits answered by source control), followed by the properties established for them.

Conventions of the embedding:

* `w_string` values are Lean strings; the default-constructed `w_string()` is the empty string.
* a thrown `QueryParseError` is the `error` side of `Except`.
* the collaborators the C++ reaches through pointers or free functions (`SCM`, `w_path_exists`,
  `w_string::pathCat`, `w_string_path_is_absolute`) are parameters.
* the operations a lookup performs on its collaborators are recorded, in order, in a list of
  `Effect`s returned next to the result.
-/

namespace watchman

/-! ## JSON values -/

/-- A JSON value, one constructor per jansson type tag
(`JSON_OBJECT`, `JSON_ARRAY`, `JSON_STRING`, `JSON_INTEGER`, `JSON_REAL`, `JSON_TRUE`,
`JSON_FALSE`, `JSON_NULL`).  A real carries the bit pattern of its double. -/
inductive Json where
  | object (members : List (String × Json))
  | array (elems : List Json)
  | string (s : String)
  | integer (n : Int)
  | real (bits : Nat)
  | jtrue
  | jfalse
  | jnull

/-- A configuration record: the members of a JSON object. -/
abbrev JsonObject := List (String × Json)

/-- Member lookup `json_ref::get_default(key)` with the default `nullptr` default value:
`some v` for a present key, `none` (the null `json_ref`, false in a boolean context) for an
absent one.  A member whose value is the JSON `null` is present. -/
def get_default (obj : JsonObject) (key : String) : Option Json :=
  obj.lookup key

/-- Type test `json_ref::isInt`. -/
def Json.isInt : Json → Bool
  | .integer _ => true
  | _ => false

/-- Type test `json_ref::isString`. -/
def Json.isString : Json → Bool
  | .string _ => true
  | _ => false

/-- Accessor `json_integer_value`: the `json_int_t` carried by an integer, 0 for any other
value. -/
def json_integer_value : Json → Int
  | .integer n => n
  | _ => 0

/-- Accessor `json_to_w_string`; it is only reached after `isString` has succeeded. -/
def json_to_w_string : Json → String
  | .string s => s
  | _ => ""

/-- Conversion `w_string_to_json`. -/
def w_string_to_json (s : String) : Json :=
  .string s

/-! ## Machine integers -/

/-- Conversion of an integer to a signed two's-complement type of `w` bits. -/
def wrapSigned (w : Nat) (v : Int) : Int :=
  (v + 2 ^ (w - 1)) % 2 ^ w - 2 ^ (w - 1)

/-- The values of `json_int_t` (a signed 64-bit integer). -/
def inJsonIntRange (v : Int) : Prop :=
  -(2 ^ 63) ≤ v ∧ v < 2 ^ 63

instance (v : Int) : Decidable (inJsonIntRange v) :=
  inferInstanceAs (Decidable (-(2 ^ 63) ≤ v ∧ v < 2 ^ 63))

/-! ## Declarations the source file takes from elsewhere -/

/-- What `LocalSavedStateInterface.cpp` uses but does not define.

* `maxCommitsBits`: width of the signed integer type of the member `maxCommits_`
  (declared in `LocalSavedStateInterface.h`);
* `numCommitsBits`: width of the signed integer type of the second parameter of
  `SCM::getCommitsPriorToAndIncluding` (declared in `scm/SCM.h`);
* `w_string_path_is_absolute`: the absoluteness test on paths;
* `pathCat`: `w_string::pathCat`, the join of path segments. -/
structure Deps where
  maxCommitsBits : Nat
  numCommitsBits : Nat
  w_string_path_is_absolute : String → Bool
  pathCat : List String → String

/-- The exception `QueryParseError` with its message. -/
structure QueryParseError where
  msg : String
  deriving DecidableEq, Repr

/-- The constant `kDefaultMaxCommits`. -/
def kDefaultMaxCommits : Int := 10

/-! ## The constructor -/

/-- The data members of `LocalSavedStateInterface` set by the constructor (`scm_`, the
pointer to the source-control collaborator, is passed to the lookup instead). -/
structure LocalSavedStateInterface where
  maxCommits_ : Int
  localStoragePath_ : String
  project_ : String
  deriving DecidableEq, Repr

/-- The constructor `LocalSavedStateInterface::LocalSavedStateInterface(savedStateConfig, scm)`:
each `throw` is an `error`, statements run top to bottom. -/
def LocalSavedStateInterface.construct (d : Deps) (savedStateConfig : JsonObject) :
    Except QueryParseError LocalSavedStateInterface :=
  -- Max commits to search in source control history for a saved state
  let maxCommitsR : Except QueryParseError Int :=
    match get_default savedStateConfig "max-commits" with
    | some maxCommits =>
      if !maxCommits.isInt then
        .error ⟨"'max-commits' must be an integer"⟩
      else
        let maxCommits_ := wrapSigned d.maxCommitsBits (json_integer_value maxCommits)
        if maxCommits_ < 1 then
          .error ⟨"'max-commits' must be a positive integer"⟩
        else
          .ok maxCommits_
    | none => .ok (wrapSigned d.maxCommitsBits kDefaultMaxCommits)
  match maxCommitsR with
  | .error e => .error e
  | .ok maxCommits_ =>
    -- Local path to search for saved states
    match get_default savedStateConfig "local-storage-path" with
    | none => .error ⟨"'local-storage-path' must be present in saved state config"⟩
    | some localStoragePath =>
      if !localStoragePath.isString then
        .error ⟨"'local-storage-path' must be a string"⟩
      else
        let localStoragePath_ := json_to_w_string localStoragePath
        if !d.w_string_path_is_absolute localStoragePath_ then
          .error ⟨"'local-storage-path' must be an absolute path"⟩
        else
          -- The saved state project
          match get_default savedStateConfig "project" with
          | none => .error ⟨"'project' must be present in saved state config"⟩
          | some project =>
            if !project.isString then
              .error ⟨"'project' must be a string"⟩
            else
              let project_ := json_to_w_string project
              if d.w_string_path_is_absolute project_ then
                .error ⟨"'project' must be a relative path"⟩
              else
                .ok { maxCommits_ := maxCommits_
                      localStoragePath_ := localStoragePath_
                      project_ := project_ }

/-! ## The lookup -/

/-- The value type `SavedStateInterface::SavedStateResult`. -/
structure SavedStateResult where
  commitId : String
  savedStateInfo : Json

/-- An operation a lookup performs on the outside world. -/
inductive Effect where
  -- a call `scm_->getCommitsPriorToAndIncluding(commitId, numCommits)`
  | scmQuery (commitId : String) (numCommits : Int)
  -- a call `w_path_exists(cpath)`
  | pathProbe (cpath : String)
  -- the debug log line "Found saved state for commit ..."
  | logFound (commitId : String)
  deriving DecidableEq, Repr

/-- The C string `s.c_str()` as a C function reads it: the bytes before the first NUL. -/
def c_str (s : String) : String :=
  ⟨s.data.takeWhile (fun c => c != Char.ofNat 0)⟩

/-- The candidate path `w_string::pathCat({localStoragePath_, project_, commitId})`. -/
def candidatePath (d : Deps) (self : LocalSavedStateInterface) (commitId : String) : String :=
  d.pathCat [self.localStoragePath_, self.project_, commitId]

/-- The result built when a candidate path exists (lines 75-79). -/
def foundResult (d : Deps) (self : LocalSavedStateInterface) (commitId : String) :
    SavedStateResult :=
  { commitId := commitId
    savedStateInfo :=
      .object [("local-path", w_string_to_json (candidatePath d self commitId)),
               ("commit-id", w_string_to_json commitId)] }

/-- The result built after the loop (lines 83-86). -/
def notFoundResult : SavedStateResult :=
  { commitId := ""
    savedStateInfo := .object [("error", w_string_to_json "No suitable saved state found")] }

/-- The loop `for (auto& commitId : commitIds)`: the effects performed and `some result` when
the loop body returned, `none` when the loop ran to its end. -/
def searchCommits (d : Deps) (w_path_exists : String → Bool) (self : LocalSavedStateInterface) :
    List String → List Effect × Option SavedStateResult
  | [] => ([], none)
  | commitId :: rest =>
    let path := candidatePath d self commitId
    if w_path_exists (c_str path) then
      ([.pathProbe (c_str path), .logFound commitId], some (foundResult d self commitId))
    else
      let r := searchCommits d w_path_exists self rest
      (.pathProbe (c_str path) :: r.1, r.2)

/-- The method `LocalSavedStateInterface::getMostRecentSavedStateImpl(lookupCommitId)`.
`scm` is `scm_->getCommitsPriorToAndIncluding`, whose exceptions are the `error` side and
pass through unchanged.  Returns the effects performed, in order, and the outcome. -/
def getMostRecentSavedStateImpl {ε : Type} (d : Deps)
    (scm : String → Int → Except ε (List String)) (w_path_exists : String → Bool)
    (self : LocalSavedStateInterface) (lookupCommitId : String) :
    List Effect × Except ε SavedStateResult :=
  let numCommits := wrapSigned d.numCommitsBits self.maxCommits_
  match scm lookupCommitId numCommits with
  | .error e => ([.scmQuery lookupCommitId numCommits], .error e)
  | .ok commitIds =>
    let r := searchCommits d w_path_exists self commitIds
    (.scmQuery lookupCommitId numCommits :: r.1, .ok (r.2.getD notFoundResult))

/-- Whether the candidate path of a commit passes the existence probe. -/
def candidateExists (d : Deps) (w_path_exists : String → Bool) (self : LocalSavedStateInterface)
    (commitId : String) : Bool :=
  w_path_exists (c_str (candidatePath d self commitId))

/-- The paths probed, in order, among the effects of a lookup. -/
def probedPaths : List Effect → List String
  | [] => []
  | .pathProbe p :: rest => p :: probedPaths rest
  | _ :: rest => probedPaths rest

/-! ## Sample collaborators used to evaluate the definitions on concrete inputs -/

/-- A POSIX instance of the outside declarations: 64-bit `maxCommits_`, 32-bit `numCommits`,
absolute means starting with a slash, segments are joined with a slash. -/
def posixDeps : Deps :=
  { maxCommitsBits := 64
    numCommitsBits := 32
    w_string_path_is_absolute := fun s => s.data.head? == some '/'
    pathCat := fun segs => "/".intercalate segs }

/-- A source-control collaborator answering every query with the given sequence. -/
def constScm (answer : List String) : String → Int → Except String (List String) :=
  fun _ _ => .ok answer

/-- A filesystem holding exactly the listed paths. -/
def fsOf (paths : List String) : String → Bool :=
  fun p => paths.contains p

/-- A locator over `/data` and project `proj`. -/
def sampleLocator (maxCommits : Int) : LocalSavedStateInterface :=
  { maxCommits_ := maxCommits, localStoragePath_ := "/data", project_ := "proj" }

/-! ## The schema of the configuration record, as the specification words it -/

/-- One rule of the configuration schema with the message raised when it is violated. -/
structure SchemaRule where
  holds : JsonObject → Bool
  message : String

/-- The eight rules in the order the specification fixes: `max-commits` (type, then
positivity), `local-storage-path` (presence, type, absoluteness), `project` (presence, type,
relativeness).  A rule about the value of a key holds vacuously when an earlier rule about
that key is the one violated. -/
def schemaRules (d : Deps) : List SchemaRule :=
  [ { holds := fun c =>
        match get_default c "max-commits" with
        | none => true
        | some v => v.isInt
      message := "'max-commits' must be an integer" },
    { holds := fun c =>
        match get_default c "max-commits" with
        | some (.integer v) => decide (1 ≤ v)
        | _ => true
      message := "'max-commits' must be a positive integer" },
    { holds := fun c => (get_default c "local-storage-path").isSome
      message := "'local-storage-path' must be present in saved state config" },
    { holds := fun c =>
        match get_default c "local-storage-path" with
        | none => true
        | some v => v.isString
      message := "'local-storage-path' must be a string" },
    { holds := fun c =>
        match get_default c "local-storage-path" with
        | some (.string p) => d.w_string_path_is_absolute p
        | _ => true
      message := "'local-storage-path' must be an absolute path" },
    { holds := fun c => (get_default c "project").isSome
      message := "'project' must be present in saved state config" },
    { holds := fun c =>
        match get_default c "project" with
        | none => true
        | some v => v.isString
      message := "'project' must be a string" },
    { holds := fun c =>
        match get_default c "project" with
        | some (.string p) => !d.w_string_path_is_absolute p
        | _ => true
      message := "'project' must be a relative path" } ]

/-- The message of the first violated rule, `none` when every rule holds. -/
def firstViolation (d : Deps) (c : JsonObject) : Option String :=
  ((schemaRules d).find? (fun r => !r.holds c)).map (fun r => r.message)

/-- Whether `max-commits` passes its two rules: absent, or an integer that is at least 1. -/
def maxCommitsValid (c : JsonObject) : Bool :=
  match get_default c "max-commits" with
  | none => true
  | some (.integer v) => decide (1 ≤ v)
  | some _ => false

/-- Whether an integer `max-commits` is a value of `json_int_t`, as every parsed JSON integer
is. -/
def maxCommitsInRange (c : JsonObject) : Bool :=
  match get_default c "max-commits" with
  | some (.integer v) => decide (inJsonIntRange v)
  | _ => true

/-! ## The source-control collaborator, as the specification words it -/

/-- Modelled from the spec: the contract of the source-control collaborator
(`SCM::getCommitsPriorToAndIncluding`, implemented outside this file).  Asked for at most
`maxCount` revisions of an ancestry `history` (the looked-up revision first, then its
ancestors, nearest first), it answers with an initial segment of `history` of at most
`maxCount` entries. -/
def ancestryAnswerOk (history : List String) (maxCount : Int) (answer : List String) : Prop :=
  answer <+: history ∧ (answer.length : Int) ≤ maxCount

instance (history : List String) (maxCount : Int) (answer : List String) :
    Decidable (ancestryAnswerOk history maxCount answer) :=
  inferInstanceAs (Decidable (answer <+: history ∧ (answer.length : Int) ≤ maxCount))

/-- Modelled from the spec: a source-control collaborator over one linear history, answering
every query with the first `maxCount` entries of it. -/
def linearScm (history : List String) : String → Int → Except String (List String) :=
  fun _ maxCount => .ok (history.take maxCount.toNat)

/-! ## Reading results and traces -/

/-- Whether a JSON value is an object with a member of the given key. -/
def Json.hasKey (j : Json) (key : String) : Bool :=
  match j with
  | .object members => (members.lookup key).isSome
  | _ => false

/-- The initial segment of a sequence up to and including its first element satisfying `p`;
the whole sequence when no element does. -/
def uptoFirstHit {α : Type} (p : α → Bool) : List α → List α
  | [] => []
  | a :: l => if p a then [a] else a :: uptoFirstHit p l

/-! ## The two halves of the constructor -/

/-- Lines 19-30 of the constructor on their own: the value stored in `maxCommits_`, or the
error thrown while validating `max-commits`. -/
def maxCommitsStage (d : Deps) (savedStateConfig : JsonObject) : Except QueryParseError Int :=
  match get_default savedStateConfig "max-commits" with
  | some maxCommits =>
    if !maxCommits.isInt then
      .error ⟨"'max-commits' must be an integer"⟩
    else
      let maxCommits_ := wrapSigned d.maxCommitsBits (json_integer_value maxCommits)
      if maxCommits_ < 1 then
        .error ⟨"'max-commits' must be a positive integer"⟩
      else
        .ok maxCommits_
  | none => .ok (wrapSigned d.maxCommitsBits kDefaultMaxCommits)

/-- Lines 33-57 of the constructor on their own, for a given value of `maxCommits_`. -/
def pathsStage (d : Deps) (savedStateConfig : JsonObject) (maxCommits_ : Int) :
    Except QueryParseError LocalSavedStateInterface :=
  match get_default savedStateConfig "local-storage-path" with
  | none => .error ⟨"'local-storage-path' must be present in saved state config"⟩
  | some localStoragePath =>
    if !localStoragePath.isString then
      .error ⟨"'local-storage-path' must be a string"⟩
    else
      let localStoragePath_ := json_to_w_string localStoragePath
      if !d.w_string_path_is_absolute localStoragePath_ then
        .error ⟨"'local-storage-path' must be an absolute path"⟩
      else
        match get_default savedStateConfig "project" with
        | none => .error ⟨"'project' must be present in saved state config"⟩
        | some project =>
          if !project.isString then
            .error ⟨"'project' must be a string"⟩
          else
            let project_ := json_to_w_string project
            if d.w_string_path_is_absolute project_ then
              .error ⟨"'project' must be a relative path"⟩
            else
              .ok { maxCommits_ := maxCommits_
                    localStoragePath_ := localStoragePath_
                    project_ := project_ }

/-! ## Conversion to a machine integer -/

theorem two_pow_pred_double (w : Nat) (hw : 1 ≤ w) : (2 : Int) ^ w = 2 * 2 ^ (w - 1) := by
  obtain ⟨k, rfl⟩ : ∃ k, w = k + 1 := ⟨w - 1, by omega⟩
  simp [pow_succ, mul_comm]

/-- A value that fits in `w` bits is unchanged by the conversion. -/
theorem wrapSigned_eq_self (w : Nat) (v : Int) (hw : 1 ≤ w)
    (h1 : -(2 ^ (w - 1)) ≤ v) (h2 : v < 2 ^ (w - 1)) : wrapSigned w v = v := by
  unfold wrapSigned
  rw [two_pow_pred_double w hw]
  generalize (2 : Int) ^ (w - 1) = h at h1 h2
  rw [Int.emod_eq_of_lt (by omega) (by omega)]
  omega

/-- The conversion never increases a non-negative value. -/
theorem wrapSigned_le_self (w : Nat) (v : Int) (hv : 0 ≤ v) : wrapSigned w v ≤ v := by
  unfold wrapSigned
  have hpos : (0 : Int) ≤ 2 ^ (w - 1) := by positivity
  have hm : (0 : Int) < 2 ^ w := by positivity
  have h1 := Int.emod_add_ediv (v + 2 ^ (w - 1)) (2 ^ w)
  have h2 : 0 ≤ (v + 2 ^ (w - 1)) / 2 ^ w := Int.ediv_nonneg (by omega) (le_of_lt hm)
  have h3 : 0 ≤ 2 ^ w * ((v + 2 ^ (w - 1)) / 2 ^ w) := mul_nonneg (le_of_lt hm) h2
  omega

theorem two_pow_63_le (w : Nat) (hw : 64 ≤ w) : (2 : Int) ^ 63 ≤ 2 ^ (w - 1) :=
  pow_le_pow_right₀ (by norm_num) (by omega)

/-- A `json_int_t` stored in a member at least 64 bits wide keeps its value. -/
theorem wrapSigned_json_int (w : Nat) (v : Int) (hw : 64 ≤ w) (hv : inJsonIntRange v) :
    wrapSigned w v = v := by
  have h := two_pow_63_le w hw
  obtain ⟨h1, h2⟩ := hv
  exact wrapSigned_eq_self w v (by omega) (by omega) (by omega)

/-! ## Properties of the search loop -/

/-- A list with an element satisfying `p` splits at the first such element. -/
theorem exists_first_split {α : Type} (p : α → Bool) :
    ∀ l : List α, (∃ r ∈ l, p r = true) →
      ∃ pre r post, l = pre ++ r :: post ∧ (∀ x ∈ pre, p x = false) ∧ p r = true
  | [], h => by
    obtain ⟨r, hr, _⟩ := h
    cases hr
  | a :: l, h => by
    cases hpa : p a with
    | true => exact ⟨[], a, l, rfl, by simp, hpa⟩
    | false =>
      have h2 : ∃ r ∈ l, p r = true := by
        obtain ⟨r, hr, hpr⟩ := h
        rcases List.mem_cons.mp hr with rfl | hmem
        · rw [hpa] at hpr; cases hpr
        · exact ⟨r, hmem, hpr⟩
      obtain ⟨pre, r, post, hl, hpre, hr⟩ := exists_first_split p l h2
      refine ⟨a :: pre, r, post, by simp [hl], ?_, hr⟩
      intro x hx
      rcases List.mem_cons.mp hx with rfl | hmem
      · exact hpa
      · exact hpre x hmem

/-- The loop over commits none of which has an existing candidate path probes each of them
in order and runs to its end. -/
theorem searchCommits_all_missing (d : Deps) (ex : String → Bool)
    (self : LocalSavedStateInterface) :
    ∀ l : List String, (∀ x ∈ l, candidateExists d ex self x = false) →
      searchCommits d ex self l
        = (l.map (fun c => Effect.pathProbe (c_str (candidatePath d self c))), none)
  | [], _ => rfl
  | a :: l, h => by
    have ha : ex (c_str (candidatePath d self a)) = false := h a (List.mem_cons_self a l)
    have ih := searchCommits_all_missing d ex self l
      (fun x hx => h x (List.mem_cons_of_mem a hx))
    simp [searchCommits, ha, ih]

/-- The loop over a sequence whose first commit with an existing candidate path is `r`:
the commits up to `r` are probed in order, the hit is logged, and the loop returns the
result built for `r`. -/
theorem searchCommits_first_hit (d : Deps) (ex : String → Bool)
    (self : LocalSavedStateInterface) (r : String) (post : List String)
    (hr : candidateExists d ex self r = true) :
    ∀ pre : List String, (∀ x ∈ pre, candidateExists d ex self x = false) →
      searchCommits d ex self (pre ++ r :: post)
        = (pre.map (fun c => Effect.pathProbe (c_str (candidatePath d self c)))
            ++ [Effect.pathProbe (c_str (candidatePath d self r)), Effect.logFound r],
           some (foundResult d self r))
  | [], _ => by
    have hr2 : ex (c_str (candidatePath d self r)) = true := hr
    simp [searchCommits, hr2]
  | a :: pre, h => by
    have ha : ex (c_str (candidatePath d self a)) = false := h a (List.mem_cons_self a pre)
    have ih := searchCommits_first_hit d ex self r post hr pre
      (fun x hx => h x (List.mem_cons_of_mem a hx))
    simp [searchCommits, ha, ih]

/-! ## The lookup: found and not found -/

/-- C1: when source control answers with a sequence in which some candidate path
`pathCat [localStoragePath_, project_, r]` exists, the lookup returns the success result of
the first such `r` in sequence order: every commit before `r` has no existing candidate
path, `commitId` is `r`, and the metadata is the two-member object with `local-path` the
candidate path of `r` and `commit-id` equal to `r`. -/
theorem getMostRecentSavedStateImpl_first_existing {ε : Type} (d : Deps)
    (scm : String → Int → Except ε (List String)) (ex : String → Bool)
    (self : LocalSavedStateInterface) (lookupCommitId : String) (commitIds : List String)
    (hscm : scm lookupCommitId (wrapSigned d.numCommitsBits self.maxCommits_) = .ok commitIds)
    (hex : ∃ r ∈ commitIds, candidateExists d ex self r = true) :
    ∃ pre r post, commitIds = pre ++ r :: post
      ∧ (∀ x ∈ pre, candidateExists d ex self x = false)
      ∧ candidateExists d ex self r = true
      ∧ (getMostRecentSavedStateImpl d scm ex self lookupCommitId).2
          = .ok { commitId := r
                  savedStateInfo := .object
                    [("local-path",
                        .string (d.pathCat [self.localStoragePath_, self.project_, r])),
                     ("commit-id", .string r)] } := by
  obtain ⟨pre, r, post, hl, hpre, hr⟩ :=
    exists_first_split (candidateExists d ex self) commitIds hex
  refine ⟨pre, r, post, hl, hpre, hr, ?_⟩
  have hs := searchCommits_first_hit d ex self r post hr pre hpre
  simp only [getMostRecentSavedStateImpl, hscm, hl, hs]
  rfl

/-- C1 at the sequence `[R0, R1, R2]` with only the path of `R1` on disk. -/
theorem getMostRecentSavedStateImpl_first_existing_witness :
    constScm ["R0", "R1", "R2"] "R0"
          (wrapSigned posixDeps.numCommitsBits (sampleLocator 10).maxCommits_)
        = .ok ["R0", "R1", "R2"]
      ∧ (∃ r ∈ ["R0", "R1", "R2"],
          candidateExists posixDeps (fsOf ["/data/proj/R1"]) (sampleLocator 10) r = true)
      ∧ (∃ pre r post, ["R0", "R1", "R2"] = pre ++ r :: post
          ∧ (∀ x ∈ pre,
              candidateExists posixDeps (fsOf ["/data/proj/R1"]) (sampleLocator 10) x = false)
          ∧ candidateExists posixDeps (fsOf ["/data/proj/R1"]) (sampleLocator 10) r = true
          ∧ (getMostRecentSavedStateImpl posixDeps (constScm ["R0", "R1", "R2"])
                (fsOf ["/data/proj/R1"]) (sampleLocator 10) "R0").2
              = .ok { commitId := r
                      savedStateInfo := .object
                        [("local-path",
                            .string (posixDeps.pathCat
                              [(sampleLocator 10).localStoragePath_,
                               (sampleLocator 10).project_, r])),
                         ("commit-id", .string r)] })
      ∧ (getMostRecentSavedStateImpl posixDeps (constScm ["R0", "R1", "R2"])
            (fsOf ["/data/proj/R1"]) (sampleLocator 10) "R0").2
          = .ok { commitId := "R1"
                  savedStateInfo := .object
                    [("local-path", .string "/data/proj/R1"), ("commit-id", .string "R1")] } :=
  ⟨rfl, ⟨"R1", by decide, by decide⟩,
    getMostRecentSavedStateImpl_first_existing posixDeps (constScm ["R0", "R1", "R2"])
      (fsOf ["/data/proj/R1"]) (sampleLocator 10) "R0" ["R0", "R1", "R2"] rfl
      ⟨"R1", by decide, by decide⟩,
    rfl⟩

/-- C2: when source control answers with a sequence none of whose candidate paths exists,
the lookup returns (without error) the result with the empty `commitId` and the one-member
metadata object `error` ↦ "No suitable saved state found". -/
theorem getMostRecentSavedStateImpl_none_existing {ε : Type} (d : Deps)
    (scm : String → Int → Except ε (List String)) (ex : String → Bool)
    (self : LocalSavedStateInterface) (lookupCommitId : String) (commitIds : List String)
    (hscm : scm lookupCommitId (wrapSigned d.numCommitsBits self.maxCommits_) = .ok commitIds)
    (hnone : ∀ r ∈ commitIds, candidateExists d ex self r = false) :
    (getMostRecentSavedStateImpl d scm ex self lookupCommitId).2
      = .ok { commitId := ""
              savedStateInfo :=
                .object [("error", .string "No suitable saved state found")] } := by
  have hs := searchCommits_all_missing d ex self commitIds hnone
  simp only [getMostRecentSavedStateImpl, hscm, hs]
  rfl

/-- C2 at the sequence `[R0, R1, R2]` over a store holding only a snapshot of `R9`. -/
theorem getMostRecentSavedStateImpl_none_existing_witness :
    constScm ["R0", "R1", "R2"] "R0"
          (wrapSigned posixDeps.numCommitsBits (sampleLocator 10).maxCommits_)
        = .ok ["R0", "R1", "R2"]
      ∧ (∀ r ∈ ["R0", "R1", "R2"],
          candidateExists posixDeps (fsOf ["/data/proj/R9"]) (sampleLocator 10) r = false)
      ∧ (getMostRecentSavedStateImpl posixDeps (constScm ["R0", "R1", "R2"])
            (fsOf ["/data/proj/R9"]) (sampleLocator 10) "R0").2
          = .ok { commitId := ""
                  savedStateInfo :=
                    .object [("error", .string "No suitable saved state found")] } :=
  ⟨rfl, by decide,
    getMostRecentSavedStateImpl_none_existing posixDeps (constScm ["R0", "R1", "R2"])
      (fsOf ["/data/proj/R9"]) (sampleLocator 10) "R0" ["R0", "R1", "R2"] rfl (by decide)⟩

/-! ## The constructor, stage by stage -/

/-- The constructor is its first half followed, when that did not throw, by its second. -/
theorem construct_eq_stages (d : Deps) (c : JsonObject) :
    LocalSavedStateInterface.construct d c
      = match maxCommitsStage d c with
        | .error e => .error e
        | .ok m => pathsStage d c m := rfl

/-- When the first half of the constructor returns. -/
theorem maxCommitsStage_ok_iff (d : Deps) (c : JsonObject) (m : Int) :
    maxCommitsStage d c = .ok m
      ↔ (get_default c "max-commits" = none
            ∧ m = wrapSigned d.maxCommitsBits kDefaultMaxCommits)
        ∨ ∃ v, get_default c "max-commits" = some (.integer v)
            ∧ m = wrapSigned d.maxCommitsBits v ∧ 1 ≤ m := by
  unfold maxCommitsStage
  rcases h1 : get_default c "max-commits" with _ | j1
  · simp [eq_comm]
  · cases j1 with
    | integer v =>
      by_cases hlt : wrapSigned d.maxCommitsBits v < 1
      · simp only [Json.isInt, json_integer_value, hlt]
        constructor
        · intro h; cases h
        · rintro (⟨h, _⟩ | ⟨v2, h, rfl, hm⟩)
          · cases h
          · cases h; omega
      · simp only [Json.isInt, json_integer_value, hlt]
        constructor
        · intro h
          cases h
          exact Or.inr ⟨v, rfl, rfl, by omega⟩
        · rintro (⟨h, _⟩ | ⟨v2, h, rfl, _⟩)
          · cases h
          · cases h; rfl
    | _ => simp [Json.isInt]

/-- When the second half of the constructor returns. -/
theorem pathsStage_ok_iff (d : Deps) (c : JsonObject) (m : Int) (s : LocalSavedStateInterface) :
    pathsStage d c m = .ok s
      ↔ ∃ p q, get_default c "local-storage-path" = some (.string p)
          ∧ d.w_string_path_is_absolute p = true
          ∧ get_default c "project" = some (.string q)
          ∧ d.w_string_path_is_absolute q = false
          ∧ s = { maxCommits_ := m, localStoragePath_ := p, project_ := q } := by
  unfold pathsStage
  rcases h2 : get_default c "local-storage-path" with _ | j2
  · simp
  · cases j2 with
    | string p =>
      cases hp : d.w_string_path_is_absolute p with
      | false => simp [Json.isString, json_to_w_string, hp]
      | true =>
        rcases h3 : get_default c "project" with _ | j3
        · simp [Json.isString, json_to_w_string, hp]
        · cases j3 with
          | string q =>
            cases hq : d.w_string_path_is_absolute q with
            | true =>
              simp only [Json.isString, json_to_w_string, hp, hq]
              constructor
              · intro h; cases h
              · rintro ⟨p1, q1, e1, _, e3, hq1, _⟩
                cases e1; cases e3
                rw [hq] at hq1; cases hq1
            | false =>
              simp only [Json.isString, json_to_w_string, hp, hq]
              constructor
              · intro h
                cases h
                exact ⟨p, q, rfl, hp, rfl, hq, rfl⟩
              · rintro ⟨p1, q1, e1, _, e3, _, rfl⟩
                cases e1; cases e3
                rfl
          | _ => simp [Json.isString, json_to_w_string, hp]
    | _ => simp [Json.isString]

/-- With a member wide enough for a `json_int_t`, a `max-commits` that passes its two rules
is stored unchanged (10 when absent). -/
theorem maxCommitsStage_of_valid (d : Deps) (c : JsonObject)
    (hw : 64 ≤ d.maxCommitsBits) (hr : maxCommitsInRange c = true)
    (hmax : maxCommitsValid c = true) :
    maxCommitsStage d c
      = .ok (match get_default c "max-commits" with
             | some (.integer v) => v
             | _ => 10) := by
  unfold maxCommitsInRange at hr
  unfold maxCommitsValid at hmax
  rw [maxCommitsStage_ok_iff]
  rcases h1 : get_default c "max-commits" with _ | j1
  · left
    refine ⟨rfl, ?_⟩
    show (10 : Int) = wrapSigned d.maxCommitsBits 10
    exact (wrapSigned_json_int _ 10 hw (by unfold inJsonIntRange; omega)).symm
  · cases j1 with
    | integer v =>
      right
      have hv : inJsonIntRange v := by simpa [h1] using hr
      have hpos : 1 ≤ v := by simpa [h1] using hmax
      exact ⟨v, rfl, (wrapSigned_json_int _ _ hw hv).symm, hpos⟩
    | _ => simp [h1] at hmax

/-- The second half of the constructor throws only the six messages about
`local-storage-path` and `project`. -/
theorem pathsStage_error_msg (d : Deps) (c : JsonObject) (m : Int) (e : QueryParseError)
    (h : pathsStage d c m = .error e) :
    e.msg ∈ ["'local-storage-path' must be present in saved state config",
             "'local-storage-path' must be a string",
             "'local-storage-path' must be an absolute path",
             "'project' must be present in saved state config",
             "'project' must be a string",
             "'project' must be a relative path"] := by
  unfold pathsStage at h
  rcases h2 : get_default c "local-storage-path" with _ | j2
  · rw [h2] at h; cases h; simp
  · rw [h2] at h
    cases j2 with
    | string p =>
      cases hp : d.w_string_path_is_absolute p with
      | false =>
        simp only [Json.isString, json_to_w_string, hp] at h
        cases h; simp
      | true =>
        rcases h3 : get_default c "project" with _ | j3
        · simp only [Json.isString, json_to_w_string, hp, h3] at h
          cases h; simp
        · cases j3 with
          | string q =>
            cases hq : d.w_string_path_is_absolute q with
            | true =>
              simp only [Json.isString, json_to_w_string, hp, h3, hq] at h
              cases h; simp
            | false =>
              simp only [Json.isString, json_to_w_string, hp, h3, hq] at h
              cases h
          | _ =>
            simp only [Json.isString, json_to_w_string, hp, h3] at h
            cases h; simp
    | _ =>
      simp only [Json.isString] at h
      cases h; simp

/-- The second half of the constructor reads only `local-storage-path` and `project`. -/
theorem pathsStage_congr (d : Deps) (c c2 : JsonObject) (m : Int)
    (h2 : get_default c2 "local-storage-path" = get_default c "local-storage-path")
    (h3 : get_default c2 "project" = get_default c "project") :
    pathsStage d c2 m = pathsStage d c m := by
  unfold pathsStage
  rw [h2, h3]

/-! ## The constructor: order of validation -/

/-- C3: with `maxCommits_` wide enough for a `json_int_t`, the constructor fails with exactly
the message of the first violated schema rule, in the order max-commits type, max-commits
positivity, local-storage-path presence, type, absoluteness, project presence, type,
relativeness; and it succeeds exactly when no rule is violated. -/
theorem construct_first_violation (d : Deps) (c : JsonObject)
    (hw : 64 ≤ d.maxCommitsBits) (hr : maxCommitsInRange c = true) :
    (∀ m : String, LocalSavedStateInterface.construct d c = .error ⟨m⟩
        ↔ firstViolation d c = some m)
      ∧ ((∃ s, LocalSavedStateInterface.construct d c = .ok s)
          ↔ firstViolation d c = none) := by
  have hdef : wrapSigned d.maxCommitsBits kDefaultMaxCommits = 10 :=
    wrapSigned_json_int _ _ hw (by unfold inJsonIntRange kDefaultMaxCommits; omega)
  unfold LocalSavedStateInterface.construct firstViolation schemaRules
  unfold maxCommitsInRange at hr
  rcases h1 : get_default c "max-commits" with _ | j1
  · rcases h2 : get_default c "local-storage-path" with _ | j2 <;>
    rcases h3 : get_default c "project" with _ | j3 <;>
    (try cases j2) <;> (try cases j3) <;>
    simp [h1, h2, h3, hdef, List.find?, Json.isInt, Json.isString, json_to_w_string]
    all_goals (split <;> simp_all)
    all_goals (split <;> simp_all)
  · cases j1 with
    | integer v =>
      have hv : wrapSigned d.maxCommitsBits v = v :=
        wrapSigned_json_int _ _ hw (by simpa [h1] using hr)
      by_cases hpos : v < 1
      · have hn : ¬ (1 ≤ v) := by omega
        simp [h1, hv, hpos, hn, List.find?, Json.isInt, json_integer_value]
      · have hpos2 : 1 ≤ v := by omega
        rcases h2 : get_default c "local-storage-path" with _ | j2 <;>
        rcases h3 : get_default c "project" with _ | j3 <;>
        (try cases j2) <;> (try cases j3) <;>
        simp [h1, h2, h3, hv, hpos, hpos2, List.find?, Json.isInt, Json.isString,
          json_to_w_string, json_integer_value]
        all_goals (split <;> simp_all)
        all_goals (split <;> simp_all)
    | _ => simp [h1, List.find?, Json.isInt]

/-- C3 at a record violating two rules (`max-commits` is 0 and `local-storage-path` is
relative): the error is the one of the earlier rule. -/
theorem construct_first_violation_witness :
    64 ≤ posixDeps.maxCommitsBits
      ∧ maxCommitsInRange
          [("max-commits", .integer 0), ("local-storage-path", .string "rel")] = true
      ∧ firstViolation posixDeps
          [("max-commits", .integer 0), ("local-storage-path", .string "rel")]
          = some "'max-commits' must be a positive integer"
      ∧ LocalSavedStateInterface.construct posixDeps
          [("max-commits", .integer 0), ("local-storage-path", .string "rel")]
          = .error ⟨"'max-commits' must be a positive integer"⟩ :=
  ⟨by decide, by decide, by decide,
    ((construct_first_violation posixDeps
        [("max-commits", .integer 0), ("local-storage-path", .string "rel")]
        (by decide) (by decide)).1 "'max-commits' must be a positive integer").mpr
      (by decide)⟩

/-! ## The constructor: the configuration it produces -/

/-- C4: with `maxCommits_` wide enough for a `json_int_t`, every locator the constructor
produces has `maxCommits_ ≥ 1`, an absolute `localStoragePath_` and a non-absolute
`project_`, and its members are the inputs: `maxCommits_` is the given `max-commits` integer
(10 when the key is absent), `localStoragePath_` and `project_` are the given strings. -/
theorem construct_ok_fields (d : Deps) (c : JsonObject) (s : LocalSavedStateInterface)
    (hw : 64 ≤ d.maxCommitsBits) (hr : maxCommitsInRange c = true)
    (hok : LocalSavedStateInterface.construct d c = .ok s) :
    1 ≤ s.maxCommits_
      ∧ d.w_string_path_is_absolute s.localStoragePath_ = true
      ∧ d.w_string_path_is_absolute s.project_ = false
      ∧ ((get_default c "max-commits" = none ∧ s.maxCommits_ = 10)
          ∨ get_default c "max-commits" = some (.integer s.maxCommits_))
      ∧ get_default c "local-storage-path" = some (.string s.localStoragePath_)
      ∧ get_default c "project" = some (.string s.project_) := by
  rw [construct_eq_stages] at hok
  rcases hst : maxCommitsStage d c with e | m
  · rw [hst] at hok; cases hok
  · rw [hst] at hok
    simp only at hok
    obtain ⟨p, q, h2, hp, h3, hq, rfl⟩ := (pathsStage_ok_iff d c m s).mp hok
    refine ⟨?_, hp, hq, ?_, h2, h3⟩
    · rcases (maxCommitsStage_ok_iff d c m).mp hst with ⟨_, hm⟩ | ⟨v, _, _, hm⟩
      · rw [hm, wrapSigned_json_int _ _ hw
          (by unfold inJsonIntRange kDefaultMaxCommits; omega)]
        show (1 : Int) ≤ kDefaultMaxCommits
        decide
      · exact hm
    · rcases (maxCommitsStage_ok_iff d c m).mp hst with ⟨h1, hm⟩ | ⟨v, h1, hm, _⟩
      · left
        refine ⟨h1, ?_⟩
        rw [hm]
        exact wrapSigned_json_int _ _ hw (by unfold inJsonIntRange kDefaultMaxCommits; omega)
      · right
        have hv : inJsonIntRange v := by
          unfold maxCommitsInRange at hr
          simpa [h1] using hr
        rw [h1, hm, wrapSigned_json_int _ _ hw hv]

/-- C4 at a record with all three keys. -/
theorem construct_ok_fields_witness :
    LocalSavedStateInterface.construct posixDeps
        [("max-commits", .integer 3), ("local-storage-path", .string "/d"),
         ("project", .string "p")]
        = .ok { maxCommits_ := 3, localStoragePath_ := "/d", project_ := "p" }
      ∧ (1 : Int) ≤ 3
      ∧ posixDeps.w_string_path_is_absolute "/d" = true
      ∧ posixDeps.w_string_path_is_absolute "p" = false :=
  have h := construct_ok_fields posixDeps
    [("max-commits", .integer 3), ("local-storage-path", .string "/d"),
     ("project", .string "p")]
    { maxCommits_ := 3, localStoragePath_ := "/d", project_ := "p" }
    (by decide) (by decide) rfl
  ⟨rfl, h.1, h.2.1, h.2.2.1⟩

/-! ## The lookup: the bound on the commits examined -/

theorem probedPaths_map_pathProbe (f : String → String) :
    ∀ l : List String, probedPaths (l.map (fun c => Effect.pathProbe (f c))) = l.map f
  | [] => rfl
  | a :: l => by
    simp [probedPaths, probedPaths_map_pathProbe f l]

/-- C5: for a locator with `maxCommits_ = N ≥ 1`, an ancestry of at least `N + 5` revisions
in which the only revision with an existing candidate path sits at a position `k ≥ N`
(the `(N+3)`-th ancestor is at position `N + 2` or `N + 3`, depending on where counting
starts), and a collaborator honouring its contract for the count it is asked, the lookup
returns the not-found result and probes at most `N` paths. -/
theorem getMostRecentSavedStateImpl_bound {ε : Type} (d : Deps)
    (scm : String → Int → Except ε (List String)) (ex : String → Bool)
    (self : LocalSavedStateInterface) (lookupCommitId : String)
    (history commitIds : List String) (k : Nat) (rk : String)
    (hN : 1 ≤ self.maxCommits_)
    (hlen : self.maxCommits_ + 5 ≤ (history.length : Int))
    (hk : self.maxCommits_ ≤ (k : Int))
    (hkex : history[k]? = some rk ∧ candidateExists d ex self rk = true)
    (honly : ∀ i r, history[i]? = some r → i ≠ k → candidateExists d ex self r = false)
    (hscm : scm lookupCommitId (wrapSigned d.numCommitsBits self.maxCommits_) = .ok commitIds)
    (hc : ancestryAnswerOk history (wrapSigned d.numCommitsBits self.maxCommits_) commitIds) :
    (getMostRecentSavedStateImpl d scm ex self lookupCommitId).2
        = .ok { commitId := ""
                savedStateInfo :=
                  .object [("error", .string "No suitable saved state found")] }
      ∧ ((probedPaths (getMostRecentSavedStateImpl d scm ex self lookupCommitId).1).length : Int)
          ≤ self.maxCommits_ := by
  obtain ⟨⟨t, rfl⟩, hcount⟩ := hc
  have hle : wrapSigned d.numCommitsBits self.maxCommits_ ≤ self.maxCommits_ :=
    wrapSigned_le_self _ _ (by omega)
  have hmiss : ∀ r ∈ commitIds, candidateExists d ex self r = false := by
    intro r hr
    obtain ⟨i, hi⟩ := List.mem_iff_getElem?.mp hr
    have hilt : i < commitIds.length := (List.getElem?_eq_some.mp hi).1
    refine honly i r ?_ (by omega)
    rw [List.getElem?_append_left hilt]
    exact hi
  have hs := searchCommits_all_missing d ex self commitIds hmiss
  simp only [getMostRecentSavedStateImpl, hscm, hs, probedPaths,
    probedPaths_map_pathProbe (fun c => c_str (candidatePath d self c)), List.length_map]
  exact ⟨rfl, by omega⟩

/-- C5 at `N = 2` over the ancestry `R0 … R6`, where only `R4` has a snapshot. -/
theorem getMostRecentSavedStateImpl_bound_witness :
    (getMostRecentSavedStateImpl posixDeps (linearScm ["R0", "R1", "R2", "R3", "R4", "R5", "R6"])
          (fsOf ["/data/proj/R4"]) (sampleLocator 2) "R0").2
        = .ok { commitId := ""
                savedStateInfo :=
                  .object [("error", .string "No suitable saved state found")] }
      ∧ ((probedPaths (getMostRecentSavedStateImpl posixDeps
              (linearScm ["R0", "R1", "R2", "R3", "R4", "R5", "R6"])
              (fsOf ["/data/proj/R4"]) (sampleLocator 2) "R0").1).length : Int)
          ≤ (sampleLocator 2).maxCommits_ :=
  getMostRecentSavedStateImpl_bound posixDeps
    (linearScm ["R0", "R1", "R2", "R3", "R4", "R5", "R6"]) (fsOf ["/data/proj/R4"])
    (sampleLocator 2) "R0" ["R0", "R1", "R2", "R3", "R4", "R5", "R6"] ["R0", "R1"] 4 "R4"
    (by decide) (by decide) (by decide) ⟨rfl, by decide⟩
    (by
      intro i r hi hne
      have hlt : i < 7 := (List.getElem?_eq_some.mp hi).1
      interval_cases i <;> simp at hi <;> subst hi <;> first | decide | exact absurd rfl hne)
    rfl (by decide)

/-! ## The constructor: single rules -/

/-- C6, as stated, fails: a record without `local-storage-path` whose `max-commits` is 0 is
rejected with the `max-commits` error, not with the "must be present" error. -/
theorem construct_missing_storage_path_counterexample :
    get_default [("max-commits", .integer 0)] "local-storage-path" = none
      ∧ LocalSavedStateInterface.construct posixDeps [("max-commits", .integer 0)]
          = .error ⟨"'max-commits' must be a positive integer"⟩
      ∧ LocalSavedStateInterface.construct posixDeps [("max-commits", .integer 0)]
          ≠ .error ⟨"'local-storage-path' must be present in saved state config"⟩ := by
  refine ⟨rfl, rfl, ?_⟩
  intro h
  have h2 : (⟨"'max-commits' must be a positive integer"⟩ : QueryParseError)
      = ⟨"'local-storage-path' must be present in saved state config"⟩ := Except.error.inj h
  simp at h2

/-- C6, amended: a record without `local-storage-path` whose `max-commits` is absent or an
integer that is at least 1 is rejected with exactly the error
"'local-storage-path' must be present in saved state config". -/
theorem construct_missing_storage_path (d : Deps) (c : JsonObject)
    (hw : 64 ≤ d.maxCommitsBits) (hr : maxCommitsInRange c = true)
    (hmax : maxCommitsValid c = true)
    (h2 : get_default c "local-storage-path" = none) :
    LocalSavedStateInterface.construct d c
      = .error ⟨"'local-storage-path' must be present in saved state config"⟩ := by
  rw [construct_eq_stages, maxCommitsStage_of_valid d c hw hr hmax]
  simp only [pathsStage, h2]

/-- C6, amended, at a record holding only a valid `max-commits` and a `project`. -/
theorem construct_missing_storage_path_witness :
    64 ≤ posixDeps.maxCommitsBits
      ∧ maxCommitsValid [("max-commits", .integer 5), ("project", .string "p")] = true
      ∧ get_default [("max-commits", .integer 5), ("project", .string "p")]
          "local-storage-path" = none
      ∧ LocalSavedStateInterface.construct posixDeps
          [("max-commits", .integer 5), ("project", .string "p")]
          = .error ⟨"'local-storage-path' must be present in saved state config"⟩ :=
  ⟨by decide, by decide, rfl,
    construct_missing_storage_path posixDeps
      [("max-commits", .integer 5), ("project", .string "p")]
      (by decide) (by decide) (by decide) rfl⟩

/-- C7, as stated, fails: a record whose `project` is an absolute path but which has no
`local-storage-path` is rejected with the "must be present" error of `local-storage-path`,
not with the relativeness error. -/
theorem construct_absolute_project_counterexample :
    get_default [("project", .string "/abs")] "project" = some (.string "/abs")
      ∧ posixDeps.w_string_path_is_absolute "/abs" = true
      ∧ LocalSavedStateInterface.construct posixDeps [("project", .string "/abs")]
          = .error ⟨"'local-storage-path' must be present in saved state config"⟩
      ∧ LocalSavedStateInterface.construct posixDeps [("project", .string "/abs")]
          ≠ .error ⟨"'project' must be a relative path"⟩ := by
  refine ⟨rfl, rfl, rfl, ?_⟩
  intro h
  have h2 : (⟨"'local-storage-path' must be present in saved state config"⟩ : QueryParseError)
      = ⟨"'project' must be a relative path"⟩ := Except.error.inj h
  simp at h2

/-- C7, amended: a record whose `project` is a string that is an absolute path, whose
`max-commits` is absent or an integer that is at least 1, and whose `local-storage-path` is a
string that is an absolute path, is rejected with the error
"'project' must be a relative path". -/
theorem construct_absolute_project (d : Deps) (c : JsonObject) (p q : String)
    (hw : 64 ≤ d.maxCommitsBits) (hr : maxCommitsInRange c = true)
    (hmax : maxCommitsValid c = true)
    (h2 : get_default c "local-storage-path" = some (.string p))
    (hp : d.w_string_path_is_absolute p = true)
    (h3 : get_default c "project" = some (.string q))
    (hq : d.w_string_path_is_absolute q = true) :
    LocalSavedStateInterface.construct d c = .error ⟨"'project' must be a relative path"⟩ := by
  rw [construct_eq_stages, maxCommitsStage_of_valid d c hw hr hmax]
  simp only [pathsStage, h2, h3, Json.isString, json_to_w_string, hp, hq]
  rfl

/-- C7, amended, at a record with an absolute `project`. -/
theorem construct_absolute_project_witness :
    posixDeps.w_string_path_is_absolute "/d" = true
      ∧ posixDeps.w_string_path_is_absolute "/abs" = true
      ∧ LocalSavedStateInterface.construct posixDeps
          [("local-storage-path", .string "/d"), ("project", .string "/abs")]
          = .error ⟨"'project' must be a relative path"⟩ :=
  ⟨rfl, rfl,
    construct_absolute_project posixDeps
      [("local-storage-path", .string "/d"), ("project", .string "/abs")] "/d" "/abs"
      (by decide) (by decide) (by decide) rfl rfl rfl rfl⟩

/-- C8, as stated, fails: a record whose `local-storage-path` is a relative path and whose
`max-commits` is 0 is rejected with the `max-commits` error, not with the absoluteness
error. -/
theorem construct_relative_storage_path_counterexample :
    get_default
        [("max-commits", .integer 0), ("local-storage-path", .string "rel"),
         ("project", .string "p")] "local-storage-path" = some (.string "rel")
      ∧ posixDeps.w_string_path_is_absolute "rel" = false
      ∧ LocalSavedStateInterface.construct posixDeps
          [("max-commits", .integer 0), ("local-storage-path", .string "rel"),
           ("project", .string "p")]
          = .error ⟨"'max-commits' must be a positive integer"⟩
      ∧ LocalSavedStateInterface.construct posixDeps
          [("max-commits", .integer 0), ("local-storage-path", .string "rel"),
           ("project", .string "p")]
          ≠ .error ⟨"'local-storage-path' must be an absolute path"⟩ := by
  refine ⟨rfl, rfl, rfl, ?_⟩
  intro h
  have h2 : (⟨"'max-commits' must be a positive integer"⟩ : QueryParseError)
      = ⟨"'local-storage-path' must be an absolute path"⟩ := Except.error.inj h
  simp at h2

/-- C8, amended: a record whose `local-storage-path` is a string that is not an absolute
path and whose `max-commits` is absent or an integer that is at least 1 is rejected with the
error "'local-storage-path' must be an absolute path", whatever `project` is and whether or
not it is present. -/
theorem construct_relative_storage_path (d : Deps) (c : JsonObject) (p : String)
    (hw : 64 ≤ d.maxCommitsBits) (hr : maxCommitsInRange c = true)
    (hmax : maxCommitsValid c = true)
    (h2 : get_default c "local-storage-path" = some (.string p))
    (hp : d.w_string_path_is_absolute p = false) :
    LocalSavedStateInterface.construct d c
      = .error ⟨"'local-storage-path' must be an absolute path"⟩ := by
  rw [construct_eq_stages, maxCommitsStage_of_valid d c hw hr hmax]
  simp only [pathsStage, h2, Json.isString, json_to_w_string, hp]
  rfl

/-- C8, amended, at a record with a relative `local-storage-path` and no `project`. -/
theorem construct_relative_storage_path_witness :
    posixDeps.w_string_path_is_absolute "rel" = false
      ∧ LocalSavedStateInterface.construct posixDeps
          [("max-commits", .integer 4), ("local-storage-path", .string "rel")]
          = .error ⟨"'local-storage-path' must be an absolute path"⟩ :=
  ⟨rfl,
    construct_relative_storage_path posixDeps
      [("max-commits", .integer 4), ("local-storage-path", .string "rel")] "rel"
      (by decide) (by decide) (by decide) rfl rfl⟩

/-! ## The constructor: `max-commits` -/

/-- C9: with `maxCommits_` wide enough for a `json_int_t`, a record whose `max-commits` is an
integer `v` is rejected with "'max-commits' must be a positive integer" when `v ≤ 0`,
whatever its other members; when `v ≥ 1` neither `max-commits` error is raised, every
locator constructed stores `maxCommits_ = v`, and one is constructed as soon as the two
paths are valid. -/
theorem construct_maxCommits_integer (d : Deps) (c : JsonObject) (v : Int)
    (hw : 64 ≤ d.maxCommitsBits) (hv : inJsonIntRange v)
    (h1 : get_default c "max-commits" = some (.integer v)) :
    (v ≤ 0 → LocalSavedStateInterface.construct d c
        = .error ⟨"'max-commits' must be a positive integer"⟩)
      ∧ (1 ≤ v →
          LocalSavedStateInterface.construct d c ≠ .error ⟨"'max-commits' must be an integer"⟩
          ∧ LocalSavedStateInterface.construct d c
              ≠ .error ⟨"'max-commits' must be a positive integer"⟩
          ∧ (∀ s, LocalSavedStateInterface.construct d c = .ok s → s.maxCommits_ = v)
          ∧ ∀ p q, get_default c "local-storage-path" = some (.string p)
              → d.w_string_path_is_absolute p = true
              → get_default c "project" = some (.string q)
              → d.w_string_path_is_absolute q = false
              → LocalSavedStateInterface.construct d c
                  = .ok { maxCommits_ := v, localStoragePath_ := p, project_ := q }) := by
  have hwv : wrapSigned d.maxCommitsBits v = v := wrapSigned_json_int _ _ hw hv
  constructor
  · intro hle
    have hlt : v < 1 := by omega
    simp only [construct_eq_stages, maxCommitsStage, h1, Json.isInt, json_integer_value, hwv,
      hlt]
    rfl
  · intro hpos
    have hst : maxCommitsStage d c = .ok v :=
      (maxCommitsStage_ok_iff d c v).mpr (Or.inr ⟨v, h1, hwv.symm, hpos⟩)
    have hc : LocalSavedStateInterface.construct d c = pathsStage d c v := by
      rw [construct_eq_stages, hst]
    rw [hc]
    refine ⟨?_, ?_, ?_, ?_⟩
    · intro h
      have := pathsStage_error_msg d c v _ h
      simp at this
    · intro h
      have := pathsStage_error_msg d c v _ h
      simp at this
    · intro s hs
      obtain ⟨p, q, _, _, _, _, rfl⟩ := (pathsStage_ok_iff d c v s).mp hs
      rfl
    · intro p q h2 hp h3 hq
      exact (pathsStage_ok_iff d c v _).mpr ⟨p, q, h2, hp, h3, hq, rfl⟩

/-- C9 at `max-commits = -3` (rejected) and at `max-commits = 2 ^ 40` (stored unchanged). -/
theorem construct_maxCommits_integer_witness :
    LocalSavedStateInterface.construct posixDeps
        [("max-commits", .integer (-3)), ("local-storage-path", .string "/d"),
         ("project", .string "p")]
        = .error ⟨"'max-commits' must be a positive integer"⟩
      ∧ LocalSavedStateInterface.construct posixDeps
          [("max-commits", .integer 1099511627776), ("local-storage-path", .string "/d"),
           ("project", .string "p")]
          = .ok { maxCommits_ := 1099511627776, localStoragePath_ := "/d", project_ := "p" } :=
  ⟨(construct_maxCommits_integer posixDeps
      [("max-commits", .integer (-3)), ("local-storage-path", .string "/d"),
       ("project", .string "p")] (-3) (by decide) (by decide) rfl).1 (by decide),
   ((construct_maxCommits_integer posixDeps
      [("max-commits", .integer 1099511627776), ("local-storage-path", .string "/d"),
       ("project", .string "p")] 1099511627776 (by decide) (by decide) rfl).2
      (by decide)).2.2.2 "/d" "p" rfl rfl rfl rfl⟩

/-- The width of `maxCommits_` matters: were the member a 32-bit integer, the value
`2 ^ 32 + 1` would be stored as 1, and `2 ^ 32` would be rejected as not positive. -/
theorem construct_maxCommits_narrow_member :
    LocalSavedStateInterface.construct { posixDeps with maxCommitsBits := 32 }
        [("max-commits", .integer 4294967297), ("local-storage-path", .string "/d"),
         ("project", .string "p")]
        = .ok { maxCommits_ := 1, localStoragePath_ := "/d", project_ := "p" }
      ∧ LocalSavedStateInterface.construct { posixDeps with maxCommitsBits := 32 }
          [("max-commits", .integer 4294967296), ("local-storage-path", .string "/d"),
           ("project", .string "p")]
          = .error ⟨"'max-commits' must be a positive integer"⟩ :=
  ⟨rfl, rfl⟩

/-- The default of 10 fits every member of at least 5 bits. -/
theorem wrapSigned_ten (w : Nat) (hw : 5 ≤ w) : wrapSigned w 10 = 10 := by
  have h : (2 : Int) ^ 4 ≤ 2 ^ (w - 1) := pow_le_pow_right₀ (by norm_num) (by omega)
  exact wrapSigned_eq_self w 10 (by omega) (by omega) (by omega)

/-- C10: for a record `c` without `max-commits` and a record `c2` that carries
`max-commits = 10` and otherwise the same `local-storage-path` and `project` members (in
particular `c` extended with `max-commits = 10`), the constructor has the same outcome on
both: the same error, or equal locators, whose lookups therefore agree for every collaborator,
filesystem and revision.  The member `maxCommits_` is assumed to have at least 5 bits, so
that it can hold 10. -/
theorem construct_default_maxCommits (d : Deps) (c c2 : JsonObject)
    (hw : 5 ≤ d.maxCommitsBits)
    (h1 : get_default c "max-commits" = none)
    (h1b : get_default c2 "max-commits" = some (.integer 10))
    (h2 : get_default c2 "local-storage-path" = get_default c "local-storage-path")
    (h3 : get_default c2 "project" = get_default c "project") :
    LocalSavedStateInterface.construct d c2 = LocalSavedStateInterface.construct d c
      ∧ ∀ s s2, LocalSavedStateInterface.construct d c = .ok s
          → LocalSavedStateInterface.construct d c2 = .ok s2
          → s2 = s
            ∧ ∀ (ε : Type) (scm : String → Int → Except ε (List String))
                (ex : String → Bool) (lookupCommitId : String),
                getMostRecentSavedStateImpl d scm ex s2 lookupCommitId
                  = getMostRecentSavedStateImpl d scm ex s lookupCommitId := by
  have hten := wrapSigned_ten d.maxCommitsBits hw
  have hst : maxCommitsStage d c = .ok 10 :=
    (maxCommitsStage_ok_iff d c 10).mpr (Or.inl ⟨h1, hten.symm⟩)
  have hst2 : maxCommitsStage d c2 = .ok 10 :=
    (maxCommitsStage_ok_iff d c2 10).mpr (Or.inr ⟨10, h1b, hten.symm, by decide⟩)
  have heq : LocalSavedStateInterface.construct d c2 = LocalSavedStateInterface.construct d c := by
    rw [construct_eq_stages, construct_eq_stages, hst, hst2]
    exact pathsStage_congr d c c2 10 h2 h3
  refine ⟨heq, ?_⟩
  intro s s2 hs hs2
  have hss : s2 = s := by
    rw [heq, hs] at hs2
    exact (Except.ok.inj hs2).symm
  subst hss
  exact ⟨rfl, fun _ _ _ _ => rfl⟩

/-- C10 at a record with the two paths, and the same record extended with
`max-commits = 10`. -/
theorem construct_default_maxCommits_witness :
    LocalSavedStateInterface.construct posixDeps
        (("max-commits", .integer 10)
          :: [("local-storage-path", .string "/d"), ("project", .string "p")])
        = LocalSavedStateInterface.construct posixDeps
            [("local-storage-path", .string "/d"), ("project", .string "p")]
      ∧ LocalSavedStateInterface.construct posixDeps
          [("local-storage-path", .string "/d"), ("project", .string "p")]
          = .ok { maxCommits_ := 10, localStoragePath_ := "/d", project_ := "p" } :=
  ⟨(construct_default_maxCommits posixDeps
      [("local-storage-path", .string "/d"), ("project", .string "p")]
      (("max-commits", .integer 10)
        :: [("local-storage-path", .string "/d"), ("project", .string "p")])
      (by decide) rfl rfl rfl rfl).1, rfl⟩

/-! ## The constructor: a `max-commits` that is not an integer -/

/-- C11: a record whose `max-commits` is present with a value that is not an integer
(a string, real, boolean, null, array or object) is rejected with
"'max-commits' must be an integer", whatever its other members. -/
theorem construct_maxCommits_not_integer (d : Deps) (c : JsonObject) (j : Json)
    (h1 : get_default c "max-commits" = some j) (hj : ∀ n : Int, j ≠ .integer n) :
    LocalSavedStateInterface.construct d c = .error ⟨"'max-commits' must be an integer"⟩ := by
  unfold LocalSavedStateInterface.construct
  cases j with
  | integer n => exact absurd rfl (hj n)
  | _ => simp only [h1, Json.isInt]; rfl

/-- C11 at a record whose `max-commits` is the JSON null and whose paths are both invalid. -/
theorem construct_maxCommits_not_integer_witness :
    get_default
        [("max-commits", .jnull), ("local-storage-path", .string "rel"),
         ("project", .string "/abs")] "max-commits" = some .jnull
      ∧ LocalSavedStateInterface.construct posixDeps
          [("max-commits", .jnull), ("local-storage-path", .string "rel"),
           ("project", .string "/abs")]
          = .error ⟨"'max-commits' must be an integer"⟩ :=
  ⟨rfl,
    construct_maxCommits_not_integer posixDeps
      [("max-commits", .jnull), ("local-storage-path", .string "rel"),
       ("project", .string "/abs")] .jnull rfl (fun _ h => by cases h)⟩

/-! ## The shape of a lookup's trace -/

theorem uptoFirstHit_of_all_false {α : Type} (p : α → Bool) :
    ∀ l : List α, (∀ x ∈ l, p x = false) → uptoFirstHit p l = l
  | [], _ => rfl
  | a :: l, h => by
    have ha : p a = false := h a (List.mem_cons_self a l)
    have ih := uptoFirstHit_of_all_false p l (fun x hx => h x (List.mem_cons_of_mem a hx))
    simp [uptoFirstHit, ha, ih]

theorem uptoFirstHit_split {α : Type} (p : α → Bool) (r : α) (post : List α)
    (hr : p r = true) :
    ∀ pre : List α, (∀ x ∈ pre, p x = false) →
      uptoFirstHit p (pre ++ r :: post) = pre ++ [r]
  | [], _ => by simp [uptoFirstHit, hr]
  | a :: pre, h => by
    have ha : p a = false := h a (List.mem_cons_self a pre)
    have ih := uptoFirstHit_split p r post hr pre
      (fun x hx => h x (List.mem_cons_of_mem a hx))
    simp [uptoFirstHit, ha, ih]

/-- The loop probes the candidate paths of the commits up to the first hit, one probe per
commit, in order. -/
theorem probedPaths_searchCommits (d : Deps) (ex : String → Bool)
    (self : LocalSavedStateInterface) :
    ∀ l : List String, probedPaths (searchCommits d ex self l).1
      = (uptoFirstHit (candidateExists d ex self) l).map
          (fun c => c_str (candidatePath d self c))
  | [] => rfl
  | a :: l => by
    have ih := probedPaths_searchCommits d ex self l
    cases ha : ex (c_str (candidatePath d self a)) with
    | true => simp [searchCommits, uptoFirstHit, candidateExists, ha, probedPaths]
    | false =>
      simp only [searchCommits, uptoFirstHit, candidateExists, ha, probedPaths] at ih ⊢
      simp [ih]

/-- The loop depends on the filesystem only through the answers to the probes of the candidate
paths of the commits it is given. -/
theorem searchCommits_congr (d : Deps) (ex1 ex2 : String → Bool)
    (self : LocalSavedStateInterface) :
    ∀ l : List String,
      (∀ r ∈ l, ex1 (c_str (candidatePath d self r)) = ex2 (c_str (candidatePath d self r))) →
      searchCommits d ex1 self l = searchCommits d ex2 self l
  | [], _ => rfl
  | a :: l, h => by
    have ha := h a (List.mem_cons_self a l)
    have ih := searchCommits_congr d ex1 ex2 self l
      (fun x hx => h x (List.mem_cons_of_mem a hx))
    simp [searchCommits, ha, ih]

/-- The loop either runs to its end, no candidate path existing, or returns the result built
for a commit of the sequence whose candidate path exists. -/
theorem searchCommits_result_cases (d : Deps) (ex : String → Bool)
    (self : LocalSavedStateInterface) :
    ∀ l : List String,
      ((searchCommits d ex self l).2 = none ∧ ∀ x ∈ l, candidateExists d ex self x = false)
      ∨ ∃ r ∈ l, candidateExists d ex self r = true
          ∧ Effect.pathProbe (c_str (candidatePath d self r)) ∈ (searchCommits d ex self l).1
          ∧ (searchCommits d ex self l).2 = some (foundResult d self r)
  | [] => Or.inl ⟨rfl, by simp⟩
  | a :: l => by
    cases ha : ex (c_str (candidatePath d self a)) with
    | true =>
      right
      exact ⟨a, List.mem_cons_self a l, ha, by simp [searchCommits, ha],
        by simp [searchCommits, ha]⟩
    | false =>
      rcases searchCommits_result_cases d ex self l with ⟨hn, hall⟩ | ⟨r, hr, hex, hp, hres⟩
      · left
        refine ⟨by simp [searchCommits, ha, hn], ?_⟩
        intro x hx
        rcases List.mem_cons.mp hx with rfl | hmem
        · exact ha
        · exact hall x hmem
      · right
        exact ⟨r, List.mem_cons_of_mem a hr, hex, by simp [searchCommits, ha, hp],
          by simp [searchCommits, ha, hres]⟩


/-- A string without a NUL character is its own C string. -/
theorem c_str_eq_self (s : String) (h : ∀ ch ∈ s.data, ch ≠ Char.ofNat 0) : c_str s = s := by
  unfold c_str
  have ht : s.data.takeWhile (fun c => c != Char.ofNat 0) = s.data := by
    rw [List.takeWhile_eq_self_iff]
    intro x hx
    simpa using h x hx
  rw [ht]

/-- The trace and result of a lookup whose query was answered: either the commits up to the
first hit are probed, the hit is logged and its result returned, or every commit is probed
and the not-found result returned. -/
theorem getMostRecentSavedStateImpl_answered {ε : Type} (d : Deps)
    (scm : String → Int → Except ε (List String)) (ex : String → Bool)
    (self : LocalSavedStateInterface) (lookupCommitId : String) (commitIds : List String)
    (hscm : scm lookupCommitId (wrapSigned d.numCommitsBits self.maxCommits_) = .ok commitIds) :
    (∃ pre r post, commitIds = pre ++ r :: post
        ∧ (∀ x ∈ pre, candidateExists d ex self x = false)
        ∧ candidateExists d ex self r = true
        ∧ getMostRecentSavedStateImpl d scm ex self lookupCommitId
            = (.scmQuery lookupCommitId (wrapSigned d.numCommitsBits self.maxCommits_)
                :: (pre.map (fun c => Effect.pathProbe (c_str (candidatePath d self c)))
                    ++ [Effect.pathProbe (c_str (candidatePath d self r)), Effect.logFound r]),
               .ok (foundResult d self r)))
      ∨ ((∀ x ∈ commitIds, candidateExists d ex self x = false)
        ∧ getMostRecentSavedStateImpl d scm ex self lookupCommitId
            = (.scmQuery lookupCommitId (wrapSigned d.numCommitsBits self.maxCommits_)
                :: commitIds.map (fun c => Effect.pathProbe (c_str (candidatePath d self c))),
               .ok notFoundResult)) := by
  by_cases hex : ∃ r ∈ commitIds, candidateExists d ex self r = true
  · left
    obtain ⟨pre, r, post, hl, hpre, hr⟩ :=
      exists_first_split (candidateExists d ex self) commitIds hex
    refine ⟨pre, r, post, hl, hpre, hr, ?_⟩
    have hs := searchCommits_first_hit d ex self r post hr pre hpre
    simp only [getMostRecentSavedStateImpl, hscm, hl, hs]
    rfl
  · right
    have hall : ∀ x ∈ commitIds, candidateExists d ex self x = false := by
      intro x hx
      cases hc : candidateExists d ex self x with
      | false => rfl
      | true => exact absurd ⟨x, hx, hc⟩ hex
    refine ⟨hall, ?_⟩
    have hs := searchCommits_all_missing d ex self commitIds hall
    simp only [getMostRecentSavedStateImpl, hscm, hs]
    rfl


/-! ## The lookup: failure of the source-control query -/

/-- C13: when the source-control query fails with `e`, the lookup fails with that same `e`
after the single query and without any existence probe; when the query succeeds, the lookup
returns a result and no error. -/
theorem getMostRecentSavedStateImpl_scm_outcome {ε : Type} (d : Deps)
    (scm : String → Int → Except ε (List String)) (ex : String → Bool)
    (self : LocalSavedStateInterface) (lookupCommitId : String) :
    (∀ e, scm lookupCommitId (wrapSigned d.numCommitsBits self.maxCommits_) = .error e →
        getMostRecentSavedStateImpl d scm ex self lookupCommitId
          = ([.scmQuery lookupCommitId (wrapSigned d.numCommitsBits self.maxCommits_)],
             .error e)
        ∧ probedPaths (getMostRecentSavedStateImpl d scm ex self lookupCommitId).1 = [])
      ∧ (∀ commitIds,
          scm lookupCommitId (wrapSigned d.numCommitsBits self.maxCommits_) = .ok commitIds →
          ∃ result,
            (getMostRecentSavedStateImpl d scm ex self lookupCommitId).2 = .ok result) := by
  constructor
  · intro e he
    constructor <;> simp [getMostRecentSavedStateImpl, he, probedPaths]
  · intro commitIds hok
    simp only [getMostRecentSavedStateImpl, hok]
    exact ⟨_, rfl⟩

/-- C13 at a collaborator that always fails, and at one that answers. -/
theorem getMostRecentSavedStateImpl_scm_outcome_witness :
    (getMostRecentSavedStateImpl posixDeps (fun _ _ => Except.error "hg: unknown revision")
          (fsOf ["/data/proj/R0"]) (sampleLocator 10) "R0"
        = ([.scmQuery "R0" 10], .error "hg: unknown revision")
      ∧ probedPaths (getMostRecentSavedStateImpl posixDeps
          (fun _ _ => Except.error "hg: unknown revision")
          (fsOf ["/data/proj/R0"]) (sampleLocator 10) "R0").1 = [])
      ∧ ∃ result, (getMostRecentSavedStateImpl posixDeps (constScm ["R0"])
          (fsOf ["/data/proj/R0"]) (sampleLocator 10) "R0").2 = .ok result :=
  ⟨(getMostRecentSavedStateImpl_scm_outcome posixDeps
      (fun _ _ => Except.error "hg: unknown revision")
      (fsOf ["/data/proj/R0"]) (sampleLocator 10) "R0").1 "hg: unknown revision" rfl,
   (getMostRecentSavedStateImpl_scm_outcome posixDeps (constScm ["R0"])
      (fsOf ["/data/proj/R0"]) (sampleLocator 10) "R0").2 ["R0"] rfl⟩

/-! ## The lookup: determinism -/

/-- C14: a lookup is a function of the locator, the revision, the answer of source control
and the answers of the existence probes on the candidate paths of the answered commits: two
lookups for the same revision against collaborators that agree on these return the same
effects and the same result (same `commitId`, same metadata, or the same error). -/
theorem getMostRecentSavedStateImpl_deterministic {ε : Type} (d : Deps)
    (scm1 scm2 : String → Int → Except ε (List String)) (ex1 ex2 : String → Bool)
    (self : LocalSavedStateInterface) (lookupCommitId : String)
    (hscm : scm1 lookupCommitId (wrapSigned d.numCommitsBits self.maxCommits_)
      = scm2 lookupCommitId (wrapSigned d.numCommitsBits self.maxCommits_))
    (hex : ∀ commitIds,
      scm1 lookupCommitId (wrapSigned d.numCommitsBits self.maxCommits_) = .ok commitIds →
      ∀ r ∈ commitIds,
        ex1 (c_str (candidatePath d self r)) = ex2 (c_str (candidatePath d self r))) :
    getMostRecentSavedStateImpl d scm1 ex1 self lookupCommitId
      = getMostRecentSavedStateImpl d scm2 ex2 self lookupCommitId := by
  simp only [getMostRecentSavedStateImpl]
  rw [← hscm]
  rcases h : scm1 lookupCommitId (wrapSigned d.numCommitsBits self.maxCommits_) with e | l
  · rfl
  · simp only [searchCommits_congr d ex1 ex2 self l (hex l h)]

/-- C14 at two filesystems that differ only outside the candidate paths of the answer. -/
theorem getMostRecentSavedStateImpl_deterministic_witness :
    getMostRecentSavedStateImpl posixDeps (constScm ["R0", "R1"])
        (fsOf ["/data/proj/R1"]) (sampleLocator 10) "R0"
      = getMostRecentSavedStateImpl posixDeps (constScm ["R0", "R1"])
          (fsOf ["/data/proj/R1", "/data/proj/R7"]) (sampleLocator 10) "R0" :=
  getMostRecentSavedStateImpl_deterministic posixDeps (constScm ["R0", "R1"])
    (constScm ["R0", "R1"]) (fsOf ["/data/proj/R1"]) (fsOf ["/data/proj/R1", "/data/proj/R7"])
    (sampleLocator 10) "R0" rfl
    (fun commitIds h => by
      cases h
      decide)

/-! ## The lookup: an empty answer -/

/-- C17: when source control answers with the empty sequence, the lookup performs the query
and nothing else (no existence probe) and returns the not-found result: empty `commitId`,
metadata `error` ↦ "No suitable saved state found". -/
theorem getMostRecentSavedStateImpl_empty_answer {ε : Type} (d : Deps)
    (scm : String → Int → Except ε (List String)) (ex : String → Bool)
    (self : LocalSavedStateInterface) (lookupCommitId : String)
    (hscm : scm lookupCommitId (wrapSigned d.numCommitsBits self.maxCommits_) = .ok []) :
    getMostRecentSavedStateImpl d scm ex self lookupCommitId
        = ([.scmQuery lookupCommitId (wrapSigned d.numCommitsBits self.maxCommits_)],
           .ok { commitId := ""
                 savedStateInfo :=
                   .object [("error", .string "No suitable saved state found")] })
      ∧ probedPaths (getMostRecentSavedStateImpl d scm ex self lookupCommitId).1 = [] := by
  simp only [getMostRecentSavedStateImpl, hscm, searchCommits]
  exact ⟨rfl, rfl⟩

/-- C17 at a collaborator answering with no commit, over a store that holds snapshots. -/
theorem getMostRecentSavedStateImpl_empty_answer_witness :
    getMostRecentSavedStateImpl posixDeps (constScm []) (fsOf ["/data/proj/R0"])
        (sampleLocator 10) "R0"
        = ([.scmQuery "R0" 10],
           .ok { commitId := ""
                 savedStateInfo :=
                   .object [("error", .string "No suitable saved state found")] })
      ∧ probedPaths (getMostRecentSavedStateImpl posixDeps (constScm [])
          (fsOf ["/data/proj/R0"]) (sampleLocator 10) "R0").1 = [] :=
  getMostRecentSavedStateImpl_empty_answer posixDeps (constScm []) (fsOf ["/data/proj/R0"])
    (sampleLocator 10) "R0" rfl

/-! ## The constructor: the keys it reads -/

/-- C18: two records that agree on `max-commits`, `local-storage-path` and `project`
(presence and value) have the same construction outcome, the same error or equal locators,
whatever their other members; in particular a record extended with a member of any other
key has the outcome of the record itself. -/
theorem construct_reads_three_keys (d : Deps) (c c2 : JsonObject)
    (h1 : get_default c2 "max-commits" = get_default c "max-commits")
    (h2 : get_default c2 "local-storage-path" = get_default c "local-storage-path")
    (h3 : get_default c2 "project" = get_default c "project") :
    LocalSavedStateInterface.construct d c2 = LocalSavedStateInterface.construct d c
      ∧ ∀ (key : String) (v : Json), key ≠ "max-commits" → key ≠ "local-storage-path"
          → key ≠ "project"
          → LocalSavedStateInterface.construct d ((key, v) :: c)
              = LocalSavedStateInterface.construct d c := by
  constructor
  · unfold LocalSavedStateInterface.construct
    rw [h1, h2, h3]
  · intro key v k1 k2 k3
    have e : ∀ k : String, key ≠ k → get_default ((key, v) :: c) k = get_default c k := by
      intro k hk
      have hb : (k == key) = false := by
        simp only [beq_eq_false_iff_ne, ne_eq]
        exact fun h => hk h.symm
      simp [get_default, List.lookup, hb]
    unfold LocalSavedStateInterface.construct
    rw [e _ k1, e _ k2, e _ k3]

/-- C18 at a valid record and the same record with two unknown members added. -/
theorem construct_reads_three_keys_witness :
    LocalSavedStateInterface.construct posixDeps
        [("colour", .jtrue), ("local-storage-path", .string "/d"),
         ("project", .string "p"), ("max-commits-typo", .integer 0)]
      = LocalSavedStateInterface.construct posixDeps
          [("local-storage-path", .string "/d"), ("project", .string "p")] :=
  (construct_reads_three_keys posixDeps
    [("local-storage-path", .string "/d"), ("project", .string "p")]
    [("colour", .jtrue), ("local-storage-path", .string "/d"),
     ("project", .string "p"), ("max-commits-typo", .integer 0)] rfl rfl rfl).1


/-! ## The lookup: the commit id of a result -/

/-- C12, as stated, fails: when source control answers with an empty revision identifier
whose candidate path exists, the lookup returns a success result (no `error` member) whose
`commitId` is empty. -/
theorem getMostRecentSavedStateImpl_commitId_empty_counterexample :
    (getMostRecentSavedStateImpl posixDeps (constScm [""]) (fsOf ["/data/proj/"])
        (sampleLocator 10) "R0").2
      = .ok { commitId := ""
              savedStateInfo :=
                .object [("local-path", .string "/data/proj/"), ("commit-id", .string "")] }
      ∧ Json.hasKey
          (.object [("local-path", .string "/data/proj/"), ("commit-id", .string "")])
          "error" = false :=
  ⟨rfl, rfl⟩

/-- C12, amended: when every revision identifier answered by source control is non-empty,
the `commitId` of the result is empty exactly when the result is the not-found result, that
is exactly when its metadata has the member `error`; a success result carries a non-empty
`commitId`, one of the answered identifiers. -/
theorem getMostRecentSavedStateImpl_commitId_empty_iff {ε : Type} (d : Deps)
    (scm : String → Int → Except ε (List String)) (ex : String → Bool)
    (self : LocalSavedStateInterface) (lookupCommitId : String) (commitIds : List String)
    (result : SavedStateResult)
    (hscm : scm lookupCommitId (wrapSigned d.numCommitsBits self.maxCommits_) = .ok commitIds)
    (hne : ∀ r ∈ commitIds, r ≠ "")
    (hres : (getMostRecentSavedStateImpl d scm ex self lookupCommitId).2 = .ok result) :
    (result.commitId = "" ↔ result.savedStateInfo.hasKey "error" = true)
      ∧ (result.commitId = ""
          ↔ result.savedStateInfo
              = .object [("error", .string "No suitable saved state found")])
      ∧ (result.savedStateInfo.hasKey "error" = false
          → result.commitId ≠ "" ∧ result.commitId ∈ commitIds) := by
  rcases getMostRecentSavedStateImpl_answered d scm ex self lookupCommitId commitIds hscm with
    ⟨pre, r, post, hl, _, _, hrun⟩ | ⟨_, hrun⟩
  · rw [hrun] at hres
    have hr : result = foundResult d self r := (Except.ok.inj hres).symm
    have hmem : r ∈ commitIds := by rw [hl]; simp
    have hrne : r ≠ "" := hne r hmem
    subst hr
    have hk : (foundResult d self r).savedStateInfo.hasKey "error" = false := rfl
    refine ⟨?_, ?_, ?_⟩
    · constructor
      · intro h; exact absurd h hrne
      · intro h; rw [hk] at h; cases h
    · constructor
      · intro h; exact absurd h hrne
      · intro h
        have h2 := congrArg (fun j => Json.hasKey j "error") h
        rw [show (fun j => Json.hasKey j "error") (foundResult d self r).savedStateInfo
          = false from rfl] at h2
        cases h2
    · intro _
      exact ⟨hrne, hmem⟩
  · rw [hrun] at hres
    have hr : result = notFoundResult := (Except.ok.inj hres).symm
    subst hr
    refine ⟨⟨fun _ => rfl, fun _ => rfl⟩, ⟨fun _ => rfl, fun _ => rfl⟩, ?_⟩
    intro h
    cases h

/-- C12, amended, at the sequence `[R0, R1]` with the snapshot of `R1` on disk. -/
theorem getMostRecentSavedStateImpl_commitId_empty_iff_witness :
    (∀ r ∈ ["R0", "R1"], r ≠ "")
      ∧ (getMostRecentSavedStateImpl posixDeps (constScm ["R0", "R1"]) (fsOf ["/data/proj/R1"])
          (sampleLocator 10) "R0").2 = .ok (foundResult posixDeps (sampleLocator 10) "R1")
      ∧ (foundResult posixDeps (sampleLocator 10) "R1").commitId ≠ ""
      ∧ (foundResult posixDeps (sampleLocator 10) "R1").commitId ∈ ["R0", "R1"] :=
  ⟨by decide, rfl,
    (getMostRecentSavedStateImpl_commitId_empty_iff posixDeps (constScm ["R0", "R1"])
      (fsOf ["/data/proj/R1"]) (sampleLocator 10) "R0" ["R0", "R1"]
      (foundResult posixDeps (sampleLocator 10) "R1") rfl (by decide) rfl).2.2 rfl⟩


/-! ## The lookup: order of the probes -/

/-- C16: for every answered sequence, the probes are issued in sequence order, one per
commit, and stop at the first hit.  Either the sequence splits as `pre ++ r :: post` with `r`
the first commit whose candidate path exists, and the lookup performs the query, the probes
of the candidate paths of `pre ++ [r]` in this order, and the log line, nothing after it; or
no candidate path exists and the lookup performs the query and the probes of the whole
sequence in order.  Each probe receives its candidate path as a C string. -/
theorem getMostRecentSavedStateImpl_probe_order {ε : Type} (d : Deps)
    (scm : String → Int → Except ε (List String)) (ex : String → Bool)
    (self : LocalSavedStateInterface) (lookupCommitId : String) (commitIds : List String)
    (hscm : scm lookupCommitId (wrapSigned d.numCommitsBits self.maxCommits_) = .ok commitIds) :
    (∃ pre r post, commitIds = pre ++ r :: post
        ∧ (∀ x ∈ pre, candidateExists d ex self x = false)
        ∧ candidateExists d ex self r = true
        ∧ (getMostRecentSavedStateImpl d scm ex self lookupCommitId).1
            = .scmQuery lookupCommitId (wrapSigned d.numCommitsBits self.maxCommits_)
                :: ((pre ++ [r]).map (fun c => Effect.pathProbe (c_str (candidatePath d self c)))
                    ++ [Effect.logFound r])
        ∧ probedPaths (getMostRecentSavedStateImpl d scm ex self lookupCommitId).1
            = (pre ++ [r]).map
                (fun c => c_str (d.pathCat [self.localStoragePath_, self.project_, c])))
      ∨ ((∀ x ∈ commitIds, candidateExists d ex self x = false)
        ∧ (getMostRecentSavedStateImpl d scm ex self lookupCommitId).1
            = .scmQuery lookupCommitId (wrapSigned d.numCommitsBits self.maxCommits_)
                :: commitIds.map (fun c => Effect.pathProbe (c_str (candidatePath d self c)))
        ∧ probedPaths (getMostRecentSavedStateImpl d scm ex self lookupCommitId).1
            = commitIds.map
                (fun c => c_str (d.pathCat [self.localStoragePath_, self.project_, c]))) := by
  have hp : probedPaths (getMostRecentSavedStateImpl d scm ex self lookupCommitId).1
      = (uptoFirstHit (candidateExists d ex self) commitIds).map
          (fun c => c_str (candidatePath d self c)) := by
    simp only [getMostRecentSavedStateImpl, hscm, probedPaths]
    exact probedPaths_searchCommits d ex self commitIds
  rcases getMostRecentSavedStateImpl_answered d scm ex self lookupCommitId commitIds hscm with
    ⟨pre, r, post, hl, hpre, hr, hrun⟩ | ⟨hall, hrun⟩
  · left
    refine ⟨pre, r, post, hl, hpre, hr, ?_, ?_⟩
    · rw [hrun]; simp
    · rw [hp, hl, uptoFirstHit_split (candidateExists d ex self) r post hr pre hpre]
      rfl
  · right
    refine ⟨hall, ?_, ?_⟩
    · rw [hrun]
    · rw [hp, uptoFirstHit_of_all_false (candidateExists d ex self) commitIds hall]
      rfl

/-- C16 at the sequence `[R0, R1, R2]` with the snapshots of `R1` and `R2` on disk: `R0`
and `R1` are probed, `R2` is not. -/
theorem getMostRecentSavedStateImpl_probe_order_witness :
    (getMostRecentSavedStateImpl posixDeps (constScm ["R0", "R1", "R2"])
        (fsOf ["/data/proj/R1", "/data/proj/R2"]) (sampleLocator 10) "R0").1
      = [.scmQuery "R0" 10, .pathProbe "/data/proj/R0", .pathProbe "/data/proj/R1",
         .logFound "R1"]
      ∧ ((∃ pre r post, ["R0", "R1", "R2"] = pre ++ r :: post
          ∧ (∀ x ∈ pre, candidateExists posixDeps (fsOf ["/data/proj/R1", "/data/proj/R2"])
                (sampleLocator 10) x = false)
          ∧ candidateExists posixDeps (fsOf ["/data/proj/R1", "/data/proj/R2"])
                (sampleLocator 10) r = true
          ∧ (getMostRecentSavedStateImpl posixDeps (constScm ["R0", "R1", "R2"])
                (fsOf ["/data/proj/R1", "/data/proj/R2"]) (sampleLocator 10) "R0").1
              = .scmQuery "R0"
                  (wrapSigned posixDeps.numCommitsBits (sampleLocator 10).maxCommits_)
                  :: ((pre ++ [r]).map
                        (fun c => Effect.pathProbe
                          (c_str (candidatePath posixDeps (sampleLocator 10) c)))
                      ++ [Effect.logFound r])
          ∧ probedPaths (getMostRecentSavedStateImpl posixDeps (constScm ["R0", "R1", "R2"])
                (fsOf ["/data/proj/R1", "/data/proj/R2"]) (sampleLocator 10) "R0").1
              = (pre ++ [r]).map
                  (fun c => c_str (posixDeps.pathCat
                    [(sampleLocator 10).localStoragePath_, (sampleLocator 10).project_, c])))
        ∨ ((∀ x ∈ ["R0", "R1", "R2"],
              candidateExists posixDeps (fsOf ["/data/proj/R1", "/data/proj/R2"])
                (sampleLocator 10) x = false)
          ∧ (getMostRecentSavedStateImpl posixDeps (constScm ["R0", "R1", "R2"])
                (fsOf ["/data/proj/R1", "/data/proj/R2"]) (sampleLocator 10) "R0").1
              = .scmQuery "R0"
                  (wrapSigned posixDeps.numCommitsBits (sampleLocator 10).maxCommits_)
                  :: ["R0", "R1", "R2"].map
                      (fun c => Effect.pathProbe
                        (c_str (candidatePath posixDeps (sampleLocator 10) c)))
          ∧ probedPaths (getMostRecentSavedStateImpl posixDeps (constScm ["R0", "R1", "R2"])
                (fsOf ["/data/proj/R1", "/data/proj/R2"]) (sampleLocator 10) "R0").1
              = ["R0", "R1", "R2"].map
                  (fun c => c_str (posixDeps.pathCat
                    [(sampleLocator 10).localStoragePath_, (sampleLocator 10).project_,
                     c])))) :=
  ⟨rfl,
    getMostRecentSavedStateImpl_probe_order posixDeps (constScm ["R0", "R1", "R2"])
      (fsOf ["/data/proj/R1", "/data/proj/R2"]) (sampleLocator 10) "R0" ["R0", "R1", "R2"]
      rfl⟩

/-! ## The lookup: the two representations of a match -/

/-- C19: on every success result (metadata without the member `error`) the `commitId` is one
of the commits source control answered, the metadata is the object with `local-path` the
join `pathCat [localStoragePath_, project_, commitId]` as it stands and `commit-id` equal to
`commitId`, and that path is the one whose existence probe returned true: its probe is in
the trace, it answered true, and it is the only probe of the lookup that did (the probe
receives the path as a C string, which is the path itself when it holds no NUL). -/
theorem getMostRecentSavedStateImpl_success_agrees {ε : Type} (d : Deps)
    (scm : String → Int → Except ε (List String)) (ex : String → Bool)
    (self : LocalSavedStateInterface) (lookupCommitId : String) (commitIds : List String)
    (result : SavedStateResult)
    (hscm : scm lookupCommitId (wrapSigned d.numCommitsBits self.maxCommits_) = .ok commitIds)
    (hres : (getMostRecentSavedStateImpl d scm ex self lookupCommitId).2 = .ok result)
    (hsucc : result.savedStateInfo.hasKey "error" = false) :
    result.commitId ∈ commitIds
      ∧ result.savedStateInfo
          = .object
              [("local-path",
                  .string (d.pathCat [self.localStoragePath_, self.project_, result.commitId])),
               ("commit-id", .string result.commitId)]
      ∧ ex (c_str (d.pathCat [self.localStoragePath_, self.project_, result.commitId])) = true
      ∧ c_str (d.pathCat [self.localStoragePath_, self.project_, result.commitId])
          ∈ probedPaths (getMostRecentSavedStateImpl d scm ex self lookupCommitId).1
      ∧ (∀ p ∈ probedPaths (getMostRecentSavedStateImpl d scm ex self lookupCommitId).1,
          ex p = true
            → p = c_str (d.pathCat [self.localStoragePath_, self.project_, result.commitId]))
      ∧ ((∀ ch ∈ (d.pathCat [self.localStoragePath_, self.project_, result.commitId]).data,
            ch ≠ Char.ofNat 0)
          → c_str (d.pathCat [self.localStoragePath_, self.project_, result.commitId])
              = d.pathCat [self.localStoragePath_, self.project_, result.commitId]) := by
  rcases getMostRecentSavedStateImpl_answered d scm ex self lookupCommitId commitIds hscm with
    ⟨pre, r, post, hl, hpre, hr, hrun⟩ | ⟨_, hrun⟩
  · have hp : probedPaths (getMostRecentSavedStateImpl d scm ex self lookupCommitId).1
        = (uptoFirstHit (candidateExists d ex self) commitIds).map
            (fun c => c_str (candidatePath d self c)) := by
      simp only [getMostRecentSavedStateImpl, hscm, probedPaths]
      exact probedPaths_searchCommits d ex self commitIds
    rw [hl, uptoFirstHit_split (candidateExists d ex self) r post hr pre hpre] at hp
    rw [hrun] at hres
    have hrr : result = foundResult d self r := (Except.ok.inj hres).symm
    subst hrr
    refine ⟨by rw [hl]; simp [foundResult], rfl, hr, ?_, ?_, c_str_eq_self _⟩
    · rw [hp]
      exact List.mem_map.mpr ⟨r, by simp, rfl⟩
    · intro p hpm hpt
      rw [hp] at hpm
      obtain ⟨x, hx, rfl⟩ := List.mem_map.mp hpm
      rcases List.mem_append.mp hx with hxpre | hxr
      · have := hpre x hxpre
        unfold candidateExists at this
        rw [this] at hpt
        cases hpt
      · rw [List.mem_singleton.mp hxr]
        rfl
  · rw [hrun] at hres
    have hrr : result = notFoundResult := (Except.ok.inj hres).symm
    subst hrr
    cases hsucc

/-- C19 at the sequence `[R0, R1, R2]` with the snapshots of `R1` and `R2` on disk. -/
theorem getMostRecentSavedStateImpl_success_agrees_witness :
    (getMostRecentSavedStateImpl posixDeps (constScm ["R0", "R1", "R2"])
        (fsOf ["/data/proj/R1", "/data/proj/R2"]) (sampleLocator 10) "R0").2
      = .ok { commitId := "R1"
              savedStateInfo :=
                .object [("local-path", .string "/data/proj/R1"),
                         ("commit-id", .string "R1")] }
      ∧ "R1" ∈ ["R0", "R1", "R2"]
      ∧ fsOf ["/data/proj/R1", "/data/proj/R2"]
          (c_str (posixDeps.pathCat
            [(sampleLocator 10).localStoragePath_, (sampleLocator 10).project_, "R1"])) = true :=
  have h := getMostRecentSavedStateImpl_success_agrees posixDeps (constScm ["R0", "R1", "R2"])
    (fsOf ["/data/proj/R1", "/data/proj/R2"]) (sampleLocator 10) "R0" ["R0", "R1", "R2"]
    { commitId := "R1"
      savedStateInfo :=
        .object [("local-path", .string "/data/proj/R1"), ("commit-id", .string "R1")] }
    rfl rfl rfl
  ⟨rfl, h.1, h.2.2.1⟩


/-- The width of the count parameter matters: were it a 32-bit integer, a locator holding
`maxCommits_ = 2 ^ 32 + 1` would ask source control for one commit. -/
theorem getMostRecentSavedStateImpl_narrow_numCommits :
    (getMostRecentSavedStateImpl posixDeps (constScm ["R0"]) (fsOf [])
        (sampleLocator 4294967297) "R0").1.head? = some (.scmQuery "R0" 1) :=
  rfl

end watchman
